import Mathlib

/-!
Verification development for the TUS engagement-tool submission service.

The definitions below are a shallow embedding of the Python sources:

* `src/services/submission/utils/file_validator.py`  (`FileValidator`)
* `src/services/submission/utils/file_processor.py`  (`FileProcessor`)
* `src/services/submission/utils/auth_decorators.py` (`role_required`)
* `src/services/submission/routes/submission_routes.py` (`upload_file`,
  `delete_upload`)

Modelling conventions:

* A pandas cell is a tagged scalar (`Cell`); `Cell.na` stands for any
  missing-value marker (Python `None` or NaN), so `pd.isna` / `pd.notna`
  become `notna`.
* A pandas `DataFrame` is a column list plus a list of rows, where a row is
  an association list from column name to cell (`row.get(col)` returns the
  missing marker when the key is absent, matching `Series.get` returning
  `None`).
* Dates carry only a calendar date (`PyDate`); the time-of-day component of
  timestamps is abstracted away, so `isoformat` renders the date part only.
* `pd.to_datetime(x, errors='coerce')` is modelled by a total function:
  with `errors='coerce'` pandas turns unparseable input into `NaT` instead
  of raising.  The parser itself recognises ISO `yyyy-mm-dd`; recognising a
  subset of pandas' formats is sound for the properties proved here, which
  only evaluate it on clearly parseable or clearly unparseable inputs.
* A SQLAlchemy session is a pair of committed and pending (staged) record
  lists plus a poison flag: once a `commit` raises, the session refuses
  every further `commit` (SQLAlchemy's pending-rollback state) until
  `rollback` is called.  Faults of the storage layer are injected through
  explicit oracles (`addErr`, `commitErr`), since whether `add`/`commit`
  raises is decided by the external database, not by this repository.
-/

/-- A JSON scalar as stored in the `data_fields` JSONB column. -/
inductive Scalar where
  | null : Scalar
  | str (s : String) : Scalar
  | num (n : Int) : Scalar
  | bool (b : Bool) : Scalar
deriving DecidableEq, Repr

/-- A calendar date, as produced by `datetime.date()`. -/
structure PyDate where
  year : Nat
  month : Nat
  day : Nat
deriving DecidableEq, Repr

/-- Zero-padded decimal rendering used by `isoformat`. -/
def padNat (width n : Nat) : String :=
  let s := toString n
  String.mk (List.replicate (width - s.length) '0') ++ s

/-- `date.isoformat()`: the ISO-8601 rendering of a date. -/
def PyDate.isoformat (d : PyDate) : String :=
  padNat 4 d.year ++ "-" ++ padNat 2 d.month ++ "-" ++ padNat 2 d.day

/-- One pandas cell value.  `na` models every missing-value marker
(`None`/NaN); `timestamp` models `datetime`/`pd.Timestamp` values;
`obj` models any other embedded object, carrying its `str()` rendering. -/
inductive Cell where
  | na : Cell
  | str (s : String) : Cell
  | num (n : Int) : Cell
  | bool (b : Bool) : Cell
  | timestamp (d : PyDate) : Cell
  | obj (s : String) : Cell
deriving DecidableEq, Repr

/-- `pd.notna`: every cell except the missing marker is non-null. -/
def notna : Cell → Bool
  | Cell.na => false
  | _ => true

/-- Python `str(value)` on a cell.  (Only the `str` branch is ever reached
on a missing value in the embedded code, because every use is guarded by
`pd.notna`; the rendering of non-string scalars is otherwise schematic.) -/
def cellStr : Cell → String
  | Cell.na => "nan"
  | Cell.str s => s
  | Cell.num n => toString n
  | Cell.bool b => if b then "True" else "False"
  | Cell.timestamp d => d.isoformat
  | Cell.obj s => s

/-- A parsed row: association list from column name to cell. -/
def Row : Type := List (String × Cell)

instance : DecidableEq Row := by
  unfold Row
  infer_instance

/-- `row.get(col)` / `row[col]`: the cell under a column name, or the
missing marker when the key is absent (`Series.get` returns `None`). -/
def rowGet (row : Row) (col : String) : Cell :=
  match List.lookup col row with
  | some c => c
  | none => Cell.na

/-- A parsed table: `df.columns` and `df.iterrows()` in order. -/
structure DataFrame where
  columns : List String
  rows : List Row
deriving DecidableEq

/-- Whitespace as stripped by Python `str.strip()`. -/
def isSpaceChar (c : Char) : Bool := c = ' ' ∨ c = '\t' ∨ c = '\n' ∨ c = '\r'

/-- Python `str.strip()`: drop leading and trailing whitespace. -/
def pyStrip (s : String) : String :=
  String.mk (((s.data.dropWhile isSpaceChar).reverse.dropWhile isSpaceChar).reverse)

/-- Split a character list on `'-'` separators. -/
def splitDashAux : List Char → List Char → List (List Char)
  | [], acc => [acc.reverse]
  | c :: rest, acc =>
    if c = '-' then acc.reverse :: splitDashAux rest []
    else splitDashAux rest (c :: acc)

/-- Digits-only character list to number; helper for the date parser. -/
def digitsVal (cs : List Char) : Option Nat :=
  if cs.isEmpty then none
  else if cs.all (fun c => c.isDigit) then
    some (cs.foldl (fun acc c => acc * 10 + (c.toNat - 48)) 0)
  else none

/-- Locale-neutral date parsing of a string, modelling the string case of
`pd.to_datetime(value, errors='coerce')` restricted to ISO `yyyy-mm-dd`;
anything else is unparseable and coerces to `NaT` (`none`). -/
def pdParseDate (s : String) : Option PyDate :=
  match splitDashAux (pyStrip s).data [] with
  | [y, m, d] =>
    match digitsVal y, digitsVal m, digitsVal d with
    | some yn, some mn, some dn =>
      if 1 ≤ mn ∧ mn ≤ 12 ∧ 1 ≤ dn ∧ dn ≤ 31 then some ⟨yn, mn, dn⟩
      else none
    | _, _, _ => none
  | _ => none

/-- `pd.to_datetime(value, errors='coerce')` on a scalar cell.  With
`errors='coerce'` pandas never raises on unparseable data: invalid input
becomes `NaT` (`none`).  Numbers are interpreted as nanosecond epoch
offsets (any small number lands on 1970-01-01). -/
def pdToDatetimeCoerce : Cell → Option PyDate
  | Cell.str s => pdParseDate s
  | Cell.timestamp d => some d
  | Cell.num _ => some ⟨1970, 1, 1⟩
  | _ => none

/-- `FileProcessor._parse_date` (file_processor.py lines 145-170): missing
values and unparseable strings yield `none`; native date/time values pass
through; the surrounding `try/except` can never fire because
`errors='coerce'` is total. -/
def parse_date (date_value : Cell) : Option PyDate :=
  if notna date_value = false then none
  else
    match date_value with
    | Cell.timestamp d => some d
    | v => pdToDatetimeCoerce v

/-- An upload template as consumed by the Validator: its required header
list (`template.headers`). -/
structure Template where
  headers : List String
deriving DecidableEq

/-- Result dict of `FileValidator` methods: `valid` plus the optional
`error`, `rows` and `columns` keys. -/
structure VResult where
  valid : Bool
  error : Option String
  rows : Option Nat
  columns : Option (List String)
deriving DecidableEq, Repr

/-- `FileValidator.required_headers`. -/
def required_headers : List String := ["submission_date", "department", "category"]

/-- `FileValidator._validate_headers` (file_validator.py lines 114-153):
with a template, the file's headers must cover the template's; otherwise
they must cover the built-in minimum set.  Extra headers are only logged. -/
def validate_headers (df : DataFrame) (template : Option Template) : VResult :=
  match template with
  | some t =>
    let missing := t.headers.filter (fun h => h ∉ df.columns)
    if missing ≠ [] then
      ⟨false, some ("Missing required headers: " ++ String.intercalate ", " missing), none, none⟩
    else
      ⟨true, none, none, none⟩
  | none =>
    let missing := required_headers.filter (fun h => h ∉ df.columns)
    if missing ≠ [] then
      ⟨false, some ("Missing required headers: " ++ String.intercalate ", " missing), none, none⟩
    else
      ⟨true, none, none, none⟩

/-- `df[header].isna().sum()`: the number of missing values in a column. -/
def missingCount (df : DataFrame) (header : String) : Nat :=
  (df.rows.filter (fun r => notna (rowGet r header) = false)).length

/-- `FileValidator._validate_content` (file_validator.py lines 155-189):
counts missing values per required header.  The date-format block wraps
`pd.to_datetime(df['submission_date'], errors='coerce')` in `try/except`,
but `errors='coerce'` never raises, so the branch appending
`'submission_date: Invalid date format'` (lines 180-181) is unreachable
and the check contributes nothing. -/
def validate_content (df : DataFrame) (template : Option Template) : VResult :=
  let errors := required_headers.foldl
    (fun acc header =>
      if header ∈ df.columns then
        if missingCount df header > 0 then
          acc ++ [header ++ ": " ++ toString (missingCount df header) ++ " missing values"]
        else acc
      else acc) []
  if errors ≠ [] then
    ⟨false, some ("Content validation failed: " ++ String.intercalate "; " errors), none, none⟩
  else
    ⟨true, none, none, none⟩

/-- The row-bound failure message of file_validator.py line 66. -/
def tooManyRowsMsg (n : Nat) : String :=
  s!"File contains too many rows ({n}). Maximum allowed: 10000"

/-- The sequence of checks inside the `try` block of
`FileValidator.validate_file` (file_validator.py lines 36-75), in source
order and short-circuiting: emptiness, headers, content, the dead
`len(df) == 0` recheck, and the 10000-row bound.  `df?` is the outcome of
`_read_file` (`none` when the file could not be read or has an
unsupported extension). -/
def validateChecks (df? : Option DataFrame) (template : Option Template) : VResult :=
  match df? with
  | none => ⟨false, some "File is empty or could not be read", none, none⟩
  | some df =>
    if df.rows.isEmpty then
      ⟨false, some "File is empty or could not be read", none, none⟩
    else
      let header_validation := validate_headers df template
      if header_validation.valid = false then header_validation
      else
        let content_validation := validate_content df template
        if content_validation.valid = false then content_validation
        else if df.rows.length = 0 then
          ⟨false, some "File contains no data rows", none, none⟩
        else if df.rows.length > 10000 then
          ⟨false, some (tooManyRowsMsg df.rows.length), none, none⟩
        else
          ⟨true, none, some df.rows.length, some df.columns⟩

/-- The body of `FileValidator.validate_file` as an exception-aware
computation.  `fault` injects an unexpected runtime error raised by a
library call anywhere inside the `try` block; when no such error occurs
the checks above run to completion. -/
def validateFileBody (fault : Option String) (df? : Option DataFrame)
    (template : Option Template) : Except String VResult :=
  match fault with
  | some e => Except.error e
  | none => Except.ok (validateChecks df? template)

/-- `FileValidator.validate_file` (file_validator.py lines 24-82): the body
wrapped in the catch-all `except` that converts any escaped exception into
an invalid result prefixed with `'Validation error: '`. -/
def validate_file (fault : Option String) (df? : Option DataFrame)
    (template : Option Template) : VResult :=
  match validateFileBody fault df? template with
  | Except.ok r => r
  | Except.error e => ⟨false, some ("Validation error: " ++ e), none, none⟩

/-- One staged `EngagementData` ORM record (submission_models.py lines
122-152), with the fields the Processor fills in. -/
structure EngagementData where
  file_id : Nat
  row_number : Nat
  submission_date : Option PyDate
  department : Option String
  category : Option String
  data_fields : List (String × Scalar)
deriving DecidableEq

/-- The per-cell coercion of the `data_fields` loop (file_processor.py
lines 60-69): missing markers become null, date/time values become their
ISO-8601 string, numbers and booleans pass through verbatim, everything
else is stringified. -/
def convertCell : Cell → Scalar
  | Cell.na => Scalar.null
  | Cell.timestamp d => Scalar.str d.isoformat
  | Cell.num n => Scalar.num n
  | Cell.bool b => Scalar.bool b
  | v => Scalar.str (cellStr v)

/-- The extraction of `department`/`category` (file_processor.py lines
54-55): `str(cell).strip()` when the cell is non-missing, else `None`. -/
def trimmedField (row : Row) (col : String) : Option String :=
  if notna (rowGet row col) then some (pyStrip (cellStr (rowGet row col)))
  else none

/-- Construction of one `EngagementData` record for row index `idx`
(file_processor.py lines 52-79).  `row_number = idx + 2` because `idx`
starts at 0 and line 1 of the file is the header. -/
def buildRecord (cols : List String) (fid : Nat) (idx : Nat) (row : Row) :
    EngagementData :=
  { file_id := fid
  , row_number := idx + 2
  , submission_date := parse_date (rowGet row "submission_date")
  , department := trimmedField row "department"
  , category := trimmedField row "category"
  , data_fields := cols.map (fun col => (col, convertCell (rowGet row col))) }

/-- The records the Processor builds for a row list starting at index
`idx`, in order. -/
def builtRecords (cols : List String) (fid : Nat) : List Row → Nat → List EngagementData
  | [], _ => []
  | r :: rest, idx => buildRecord cols fid idx r :: builtRecords cols fid rest (idx + 1)

/-- A SQLAlchemy session: committed rows, staged (pending) rows, and the
pending-rollback poison flag.  After a `commit` raises, SQLAlchemy refuses
every further `commit` on the session until `rollback` is called. -/
structure Session where
  committed : List EngagementData
  pending : List EngagementData
  poisoned : Bool
deriving DecidableEq

/-- `db_session.add(record)`: stage a record.  Staging alone never touches
the database. -/
def Session.add (s : Session) (r : EngagementData) : Session :=
  { s with pending := s.pending ++ [r] }

/-- The exception a SQLAlchemy session raises when used after a failed
commit and before a rollback. -/
def pendingRollbackMsg : String := "PendingRollbackError"

/-- `db_session.commit()`.  `fault` injects a storage failure for this
call (the message of the raised exception).  A poisoned session raises at
once; a fresh failure poisons the session; success persists all pending
rows. -/
def Session.commit (fault : Option String) (s : Session) : Session × Option String :=
  if s.poisoned then
    (s, some pendingRollbackMsg)
  else
    match fault with
    | some e => ({ s with poisoned := true }, some e)
    | none => (⟨s.committed ++ s.pending, [], false⟩, none)

/-- `db_session.rollback()`: discard uncommitted rows, clear the poison
flag; committed rows stay persisted. -/
def Session.rollback (s : Session) : Session :=
  ⟨s.committed, [], false⟩

/-- The mutable state of the row loop of `FileProcessor.process_file`:
the counters and error list of lines 45-47, the session, plus a count of
commit calls made so far (indexing into the `commitErr` oracle). -/
structure LoopState where
  rows_processed : Nat
  rows_failed : Nat
  error_details : List String
  commits : Nat
  sess : Session
deriving DecidableEq

/-- One iteration of the row loop (file_processor.py lines 50-96).
`addErr idx` injects an exception raised while building/staging row `idx`
(`db_session.add`, e.g. a constraint violation); `commitErr k` injects a
failure of the k-th commit call.  Any exception inside the `try` is caught
by the `except` of lines 89-96: `rows_failed` is incremented, the
diagnostic `"Row {idx + 2}: {cause}"` is appended, and the loop continues.
Note that the batch commit of lines 84-87 sits inside the same `try`, so
its failure is caught by the same per-row handler. -/
def processRow (addErr commitErr : Nat → Option String) (cols : List String)
    (fid : Nat) (idx : Nat) (row : Row) (st : LoopState) : LoopState :=
  match addErr idx with
  | some e =>
    { st with rows_failed := st.rows_failed + 1
            , error_details := st.error_details ++ [s!"Row {idx + 2}: {e}"] }
  | none =>
    let record := buildRecord cols fid idx row
    let sess := st.sess.add record
    let rp := st.rows_processed + 1
    if rp % 100 = 0 then
      match Session.commit (commitErr st.commits) sess with
      | (sess2, none) =>
        { st with rows_processed := rp, sess := sess2, commits := st.commits + 1 }
      | (sess2, some e) =>
        { st with rows_processed := rp
                , rows_failed := st.rows_failed + 1
                , error_details := st.error_details ++ [s!"Row {idx + 2}: {e}"]
                , sess := sess2
                , commits := st.commits + 1 }
    else
      { st with rows_processed := rp, sess := sess }

/-- The full row loop of `process_file`, enumerating rows from index
`idx`. -/
def processRows (addErr commitErr : Nat → Option String) (cols : List String)
    (fid : Nat) : List Row → Nat → LoopState → LoopState
  | [], _, st => st
  | r :: rest, idx, st =>
    processRows addErr commitErr cols fid rest (idx + 1)
      (processRow addErr commitErr cols fid idx r st)

/-- The result dict of `process_file` (file_processor.py lines 103-108). -/
structure ProcResult where
  rows_processed : Nat
  rows_failed : Nat
  total_rows : Nat
  notes : String
deriving DecidableEq

deriving instance DecidableEq for Except

/-- `FileProcessor.process_file` (file_processor.py lines 25-113): read
the file (`df?` is `_read_file`'s outcome), run the row loop, make the
final commit of line 99, and on any escaped exception roll the session
back and re-raise (lines 110-113). -/
def process_file (addErr commitErr : Nat → Option String) (df? : Option DataFrame)
    (fid : Nat) (sess : Session) : Session × Except String ProcResult :=
  match df? with
  | none => (sess.rollback, Except.error "Failed to read file")
  | some df =>
    let st := processRows addErr commitErr df.columns fid df.rows 0
      ⟨0, 0, [], 0, sess⟩
    match Session.commit (commitErr st.commits) st.sess with
    | (sessF, none) =>
      (sessF, Except.ok
        { rows_processed := st.rows_processed
        , rows_failed := st.rows_failed
        , total_rows := df.rows.length
        , notes :=
            if st.error_details.isEmpty then "All rows processed successfully"
            else s!"{st.error_details.length} errors encountered" })
    | (sessF, some e) => (sessF.rollback, Except.error e)

/-- `UploadStatus` (submission_models.py lines 31-37). -/
inductive UploadStatus where
  | pending : UploadStatus
  | processing : UploadStatus
  | completed : UploadStatus
  | failed : UploadStatus
  | rejected : UploadStatus
deriving DecidableEq, Repr

/-- The `UploadedFile` lifecycle fields mutated by the `upload_file`
route: status, error message, counters and notes. -/
structure UploadRec where
  upload_status : UploadStatus
  error_message : Option String
  rows_processed : Nat
  rows_failed : Nat
  validation_notes : Option String
deriving DecidableEq

/-- The HTTP outcome of the processing block of the `upload_file` route. -/
inductive UploadResponse where
  | ok (processing : ProcResult) : UploadResponse
  | validationFailed (details : String) : UploadResponse
  | processingFailed (details : String) : UploadResponse
  | uploadFailed : UploadResponse
deriving DecidableEq

/-- The processing block of the `upload_file` route
(submission_routes.py lines 124-195): mark the upload `processing`,
validate, on failure mark it `rejected` and answer 400; otherwise run the
Processor and either mark the upload `completed` with the returned
counters (lines 164-178) or, when the Processor raised, mark it `failed`
with the exception text (lines 180-190).  The outermost `except`
(lines 192-195) rolls back and answers a generic 500. -/
def processUpload (fault : Option String) (addErr commitErr : Nat → Option String)
    (df? : Option DataFrame) (template : Option Template) (fid : Nat)
    (sess : Session) (u : UploadRec) : UploadRec × Session × UploadResponse :=
  let u1 := { u with upload_status := UploadStatus.processing }
  match Session.commit none sess with
  | (sess1, some _) => (u1, sess1.rollback, UploadResponse.uploadFailed)
  | (sess1, none) =>
    let validation_result := validate_file fault df? template
    if validation_result.valid = false then
      let u2 := { u1 with upload_status := UploadStatus.rejected
                        , error_message := validation_result.error }
      match Session.commit none sess1 with
      | (sess2, some _) => (u2, sess2.rollback, UploadResponse.uploadFailed)
      | (sess2, none) =>
        (u2, sess2, UploadResponse.validationFailed
          ((validation_result.error).getD ""))
    else
      match process_file addErr commitErr df? fid sess1 with
      | (sess2, Except.error e) =>
        let u2 := { u1 with upload_status := UploadStatus.failed
                          , error_message := some e }
        match Session.commit none sess2 with
        | (sess3, some _) => (u2, sess3.rollback, UploadResponse.uploadFailed)
        | (sess3, none) => (u2, sess3, UploadResponse.processingFailed e)
      | (sess2, Except.ok processing_result) =>
        let u2 := { u1 with upload_status := UploadStatus.completed
                          , rows_processed := processing_result.rows_processed
                          , rows_failed := processing_result.rows_failed
                          , validation_notes := some processing_result.notes }
        match Session.commit none sess2 with
        | (sess3, some _) => (u2, sess3.rollback, UploadResponse.uploadFailed)
        | (sess3, none) => (u2, sess3, UploadResponse.ok processing_result)

/-- One `AuditLog` row (submission_models.py lines 221-237), restricted to
the fields the delete route fills in. -/
structure AuditEntry where
  user_id : Nat
  action : String
  record_id : Nat
deriving DecidableEq

/-- One stored upload as seen by the delete route. -/
structure StoredUpload where
  file_id : Nat
  original_filename : String
deriving DecidableEq

/-- The storage state touched by `delete_upload`: uploads, their
engagement rows, and the append-only audit log. -/
structure Store where
  uploads : List StoredUpload
  engagement : List EngagementData
  audit : List AuditEntry
deriving DecidableEq

/-- The body of the `delete_upload` route (submission_routes.py lines
368-401): look the upload up, append one `FILE_DELETED` audit entry, and
delete the record (the `ondelete='CASCADE'` foreign key removes its
engagement rows). -/
def delete_upload (current_user_id : Nat) (fid : Nat) (st : Store) :
    Option String × Store :=
  match st.uploads.find? (fun up => up.file_id = fid) with
  | none => (some "Upload not found", st)
  | some up =>
    let st1 := { st with audit :=
      st.audit ++ [(⟨current_user_id, "FILE_DELETED", up.file_id⟩ : AuditEntry)] }
    let st2 := { st1 with uploads := st1.uploads.filter (fun v => v.file_id ≠ fid)
                        , engagement := st1.engagement.filter (fun r => r.file_id ≠ fid) }
    (none, st2)

/-- The possible outcomes of a role-guarded endpoint: the 403 payload with
its `required_roles` and `your_role` fields, or the wrapped handler's
result. -/
inductive RouteResult (α : Type) where
  | forbidden (required_roles : List String) (your_role : String) : RouteResult α
  | handled (r : α) : RouteResult α
deriving DecidableEq

/-- `role_required` (auth_decorators.py lines 12-39): read the `role` JWT
claim (defaulting to `'public'`); if it is not in the allow-list, answer
403 carrying the allow-list and the caller's role without invoking the
wrapped handler; otherwise run the handler. -/
def role_required (allowed_roles : List String) (fn : Store → Option String × Store)
    (jwtClaims : List (String × String)) (st : Store) :
    RouteResult (Option String) × Store :=
  let user_role := (List.lookup "role" jwtClaims).getD "public"
  if user_role ∉ allowed_roles then
    (RouteResult.forbidden allowed_roles user_role, st)
  else
    let r := fn st
    (RouteResult.handled r.1, r.2)

/-- The `DELETE /uploads/<file_id>` endpoint: `delete_upload` wrapped by
`@role_required(['admin', 'executive'])` (submission_routes.py lines
355-358). -/
def delete_upload_endpoint (jwtClaims : List (String × String))
    (current_user_id : Nat) (fid : Nat) (st : Store) :
    RouteResult (Option String) × Store :=
  role_required ["admin", "executive"] (delete_upload current_user_id fid) jwtClaims st

/-! ### Concrete sample inputs used for witnesses and counterexamples -/

/-- The storage-fault oracle of a fault-free run: nothing ever raises. -/
def noErr : Nat → Option String := fun _ => none

/-- A session at the start of a request: nothing staged, nothing poisoned. -/
def freshSession : Session := ⟨[], [], false⟩

/-- An upload record as created on acceptance (status `pending`). -/
def sampleUpload : UploadRec := ⟨UploadStatus.pending, none, 0, 0, none⟩

/-- A well-formed sample row with all three required cells present. -/
def sampleRow : Row :=
  [("submission_date", Cell.timestamp ⟨2025, 1, 5⟩),
   ("department", Cell.str "CS"), ("category", Cell.str "Talk")]

/-- A one-row sample table that passes validation. -/
def sampleDf : DataFrame :=
  ⟨["submission_date", "department", "category"], [sampleRow]⟩

/-- The record the Processor builds from `sampleRow` for file 1, row 0. -/
def sampleRecord : EngagementData :=
  ⟨1, 2, some ⟨2025, 1, 5⟩, some "CS", some "Talk",
   [("submission_date", Scalar.str "2025-01-05"), ("department", Scalar.str "CS"),
    ("category", Scalar.str "Talk")]⟩

/-- A table whose `submission_date` column is present everywhere but
nowhere coercible to a date. -/
def badDateRow : Row :=
  [("submission_date", Cell.str "not-a-date"),
   ("department", Cell.str "CS"), ("category", Cell.str "Talk")]

/-- The one-row table built from `badDateRow`. -/
def badDateDf : DataFrame :=
  ⟨["submission_date", "department", "category"], [badDateRow]⟩

/-- A row whose department cell is blank (whitespace only) but present. -/
def blankDeptRow : Row := [("department", Cell.str "   ")]

/-- A staging oracle that raises `boom` for the first row only. -/
def failFirstAdd : Nat → Option String := fun i => if i = 0 then some "boom" else none

/-- A commit oracle that fails the first commit call of a run. -/
def failFirstCommit : Nat → Option String := fun k => if k = 0 then some "db down" else none

/-- 101 minimal rows: enough to cross the batch boundary at 100. -/
def rows101 : List Row := List.replicate 101 ([] : Row)

/-- A file with 10001 well-formed rows: one over the row bound. -/
def df10001 : DataFrame :=
  ⟨["submission_date", "department", "category"], List.replicate 10001 sampleRow⟩

/-- A file with exactly 10000 well-formed rows: at the row bound. -/
def df10000 : DataFrame :=
  ⟨["submission_date", "department", "category"], List.replicate 10000 sampleRow⟩

/-! ### Session and row-loop lemmas -/

@[simp] theorem Session.add_poisoned (s : Session) (r : EngagementData) :
    (s.add r).poisoned = s.poisoned := rfl

@[simp] theorem Session.add_committed (s : Session) (r : EngagementData) :
    (s.add r).committed = s.committed := rfl

@[simp] theorem Session.add_pending (s : Session) (r : EngagementData) :
    (s.add r).pending = s.pending ++ [r] := rfl

theorem Session.commit_of_poisoned (fault : Option String) (s : Session)
    (h : s.poisoned = true) :
    Session.commit fault s = (s, some pendingRollbackMsg) := by
  simp [Session.commit, h]

theorem Session.commit_ok_elim (fault : Option String) (s : Session)
    (h : (Session.commit fault s).2 = none) :
    s.poisoned = false ∧ fault = none ∧
      (Session.commit fault s).1 = ⟨s.committed ++ s.pending, [], false⟩ := by
  unfold Session.commit at h ⊢
  by_cases hp : s.poisoned = true
  · simp [hp] at h
  · simp only [Bool.not_eq_true] at hp
    cases fault <;> simp_all

theorem processRows_nil (addErr commitErr : Nat → Option String) (cols : List String)
    (fid idx : Nat) (st : LoopState) :
    processRows addErr commitErr cols fid [] idx st = st := rfl

theorem processRows_cons (addErr commitErr : Nat → Option String) (cols : List String)
    (fid idx : Nat) (r : Row) (rest : List Row) (st : LoopState) :
    processRows addErr commitErr cols fid (r :: rest) idx st =
      processRows addErr commitErr cols fid rest (idx + 1)
        (processRow addErr commitErr cols fid idx r st) := rfl

theorem processRow_addErr_some (addErr commitErr : Nat → Option String)
    (cols : List String) (fid idx : Nat) (row : Row) (st : LoopState) (e : String)
    (h : addErr idx = some e) :
    processRow addErr commitErr cols fid idx row st =
      { st with rows_failed := st.rows_failed + 1
              , error_details := st.error_details ++ [s!"Row {idx + 2}: {e}"] } := by
  unfold processRow
  rw [h]

theorem processRow_nonboundary (addErr commitErr : Nat → Option String)
    (cols : List String) (fid idx : Nat) (row : Row) (st : LoopState)
    (h : addErr idx = none) (hb : (st.rows_processed + 1) % 100 ≠ 0) :
    processRow addErr commitErr cols fid idx row st =
      { st with rows_processed := st.rows_processed + 1
              , sess := st.sess.add (buildRecord cols fid idx row) } := by
  unfold processRow
  rw [h]
  simp [hb]

theorem processRow_boundary_ok (addErr commitErr : Nat → Option String)
    (cols : List String) (fid idx : Nat) (row : Row) (st : LoopState)
    (h : addErr idx = none) (hb : (st.rows_processed + 1) % 100 = 0)
    (hp : st.sess.poisoned = false) (hc : commitErr st.commits = none) :
    processRow addErr commitErr cols fid idx row st =
      { st with rows_processed := st.rows_processed + 1
              , commits := st.commits + 1
              , sess := ⟨st.sess.committed ++ (st.sess.pending ++ [buildRecord cols fid idx row]),
                         [], false⟩ } := by
  unfold processRow
  rw [h]
  simp only [hb, if_pos rfl, reduceIte]
  rw [show Session.commit (commitErr st.commits) (st.sess.add (buildRecord cols fid idx row)) =
      (⟨st.sess.committed ++ (st.sess.pending ++ [buildRecord cols fid idx row]), [], false⟩,
        none) from by simp [Session.commit, Session.add, hp, hc]]

theorem processRow_boundary_fail (addErr commitErr : Nat → Option String)
    (cols : List String) (fid idx : Nat) (row : Row) (st : LoopState) (e : String)
    (h : addErr idx = none) (hb : (st.rows_processed + 1) % 100 = 0)
    (hp : st.sess.poisoned = false) (hc : commitErr st.commits = some e) :
    processRow addErr commitErr cols fid idx row st =
      { st with rows_processed := st.rows_processed + 1
              , rows_failed := st.rows_failed + 1
              , error_details := st.error_details ++ [s!"Row {idx + 2}: {e}"]
              , commits := st.commits + 1
              , sess := ⟨st.sess.committed, st.sess.pending ++ [buildRecord cols fid idx row],
                         true⟩ } := by
  unfold processRow
  rw [h]
  simp only [hb, if_pos rfl, reduceIte]
  rw [show Session.commit (commitErr st.commits) (st.sess.add (buildRecord cols fid idx row)) =
      (⟨st.sess.committed, st.sess.pending ++ [buildRecord cols fid idx row], true⟩, some e)
      from by simp [Session.commit, Session.add, hp, hc]]

theorem processRow_boundary_poisoned (addErr commitErr : Nat → Option String)
    (cols : List String) (fid idx : Nat) (row : Row) (st : LoopState)
    (h : addErr idx = none) (hb : (st.rows_processed + 1) % 100 = 0)
    (hp : st.sess.poisoned = true) :
    processRow addErr commitErr cols fid idx row st =
      { st with rows_processed := st.rows_processed + 1
              , rows_failed := st.rows_failed + 1
              , error_details := st.error_details ++ [s!"Row {idx + 2}: {pendingRollbackMsg}"]
              , commits := st.commits + 1
              , sess := ⟨st.sess.committed, st.sess.pending ++ [buildRecord cols fid idx row],
                         true⟩ } := by
  unfold processRow
  rw [h]
  simp only [hb, if_pos rfl, reduceIte]
  rw [Session.commit_of_poisoned _ _ (by simp [hp])]
  simp [Session.add, hp]

theorem processRow_of_poisoned (addErr commitErr : Nat → Option String)
    (cols : List String) (fid idx : Nat) (row : Row) (st : LoopState)
    (h : st.sess.poisoned = true) :
    (processRow addErr commitErr cols fid idx row st).sess.poisoned = true ∧
    (processRow addErr commitErr cols fid idx row st).sess.committed = st.sess.committed ∧
    st.rows_processed + st.rows_failed + 1 ≤
      (processRow addErr commitErr cols fid idx row st).rows_processed +
        (processRow addErr commitErr cols fid idx row st).rows_failed := by
  cases haddErr : addErr idx with
  | some e =>
    rw [processRow_addErr_some addErr commitErr cols fid idx row st e haddErr]
    simp [h]
    omega
  | none =>
    by_cases hb : (st.rows_processed + 1) % 100 = 0
    · rw [processRow_boundary_poisoned addErr commitErr cols fid idx row st haddErr hb h]
      simp
      omega
    · rw [processRow_nonboundary addErr commitErr cols fid idx row st haddErr hb]
      simp [h]
      omega

theorem processRows_of_poisoned (addErr commitErr : Nat → Option String)
    (cols : List String) (fid : Nat) (rows : List Row) (idx : Nat) (st : LoopState)
    (h : st.sess.poisoned = true) :
    (processRows addErr commitErr cols fid rows idx st).sess.poisoned = true ∧
    (processRows addErr commitErr cols fid rows idx st).sess.committed = st.sess.committed ∧
    st.rows_processed + st.rows_failed + rows.length ≤
      (processRows addErr commitErr cols fid rows idx st).rows_processed +
        (processRows addErr commitErr cols fid rows idx st).rows_failed := by
  induction rows generalizing idx st with
  | nil =>
    simp [processRows_nil, h]
  | cons r rest ih =>
    rw [processRows_cons]
    have hrow := processRow_of_poisoned addErr commitErr cols fid idx r st h
    have hrest := ih (idx + 1) (processRow addErr commitErr cols fid idx r st) hrow.1
    refine ⟨hrest.1, ?_, ?_⟩
    · rw [hrest.2.1, hrow.2.1]
    · have := hrow.2.2
      have := hrest.2.2
      simp only [List.length_cons]
      omega

theorem processRow_of_unpoisoned_result (addErr commitErr : Nat → Option String)
    (cols : List String) (fid idx : Nat) (row : Row) (st : LoopState)
    (h : (processRow addErr commitErr cols fid idx row st).sess.poisoned = false) :
    st.sess.poisoned = false ∧
    (processRow addErr commitErr cols fid idx row st).rows_processed +
        (processRow addErr commitErr cols fid idx row st).rows_failed =
      st.rows_processed + st.rows_failed + 1 := by
  by_cases hp : st.sess.poisoned = true
  · exact absurd h (by simp [(processRow_of_poisoned addErr commitErr cols fid idx row st hp).1])
  · simp only [Bool.not_eq_true] at hp
    refine ⟨hp, ?_⟩
    cases haddErr : addErr idx with
    | some e =>
      rw [processRow_addErr_some addErr commitErr cols fid idx row st e haddErr]
      simp
      omega
    | none =>
      by_cases hb : (st.rows_processed + 1) % 100 = 0
      · cases hc : commitErr st.commits with
        | none =>
          rw [processRow_boundary_ok addErr commitErr cols fid idx row st haddErr hb hp hc]
          simp
          omega
        | some e =>
          rw [processRow_boundary_fail addErr commitErr cols fid idx row st e haddErr hb hp hc] at h
          simp at h
      · rw [processRow_nonboundary addErr commitErr cols fid idx row st haddErr hb]
        simp
        omega

theorem processRows_of_unpoisoned_result (addErr commitErr : Nat → Option String)
    (cols : List String) (fid : Nat) (rows : List Row) (idx : Nat) (st : LoopState)
    (h : (processRows addErr commitErr cols fid rows idx st).sess.poisoned = false) :
    st.sess.poisoned = false ∧
    (processRows addErr commitErr cols fid rows idx st).rows_processed +
        (processRows addErr commitErr cols fid rows idx st).rows_failed =
      st.rows_processed + st.rows_failed + rows.length := by
  induction rows generalizing idx st with
  | nil =>
    simp [processRows_nil] at h ⊢
    exact h
  | cons r rest ih =>
    rw [processRows_cons] at h ⊢
    have hrest := ih (idx + 1) (processRow addErr commitErr cols fid idx r st) h
    have hrow := processRow_of_unpoisoned_result addErr commitErr cols fid idx r st hrest.1
    refine ⟨hrow.1, ?_⟩
    rw [hrest.2, hrow.2]
    simp only [List.length_cons]
    omega

theorem processRow_committed_extension (addErr commitErr : Nat → Option String)
    (cols : List String) (fid idx : Nat) (row : Row) (st : LoopState) :
    ∃ t, (processRow addErr commitErr cols fid idx row st).sess.committed =
      st.sess.committed ++ t := by
  cases haddErr : addErr idx with
  | some e =>
    rw [processRow_addErr_some addErr commitErr cols fid idx row st e haddErr]
    exact ⟨[], by simp⟩
  | none =>
    by_cases hb : (st.rows_processed + 1) % 100 = 0
    · by_cases hp : st.sess.poisoned = true
      · rw [processRow_boundary_poisoned addErr commitErr cols fid idx row st haddErr hb hp]
        exact ⟨[], by simp⟩
      · simp only [Bool.not_eq_true] at hp
        cases hc : commitErr st.commits with
        | none =>
          rw [processRow_boundary_ok addErr commitErr cols fid idx row st haddErr hb hp hc]
          exact ⟨st.sess.pending ++ [buildRecord cols fid idx row], rfl⟩
        | some e =>
          rw [processRow_boundary_fail addErr commitErr cols fid idx row st e haddErr hb hp hc]
          exact ⟨[], by simp⟩
    · rw [processRow_nonboundary addErr commitErr cols fid idx row st haddErr hb]
      exact ⟨[], by simp⟩

theorem processRows_committed_extension (addErr commitErr : Nat → Option String)
    (cols : List String) (fid : Nat) (rows : List Row) (idx : Nat) (st : LoopState) :
    ∃ t, (processRows addErr commitErr cols fid rows idx st).sess.committed =
      st.sess.committed ++ t := by
  induction rows generalizing idx st with
  | nil =>
    exact ⟨[], by simp [processRows_nil]⟩
  | cons r rest ih =>
    rw [processRows_cons]
    obtain ⟨t1, h1⟩ := processRow_committed_extension addErr commitErr cols fid idx r st
    obtain ⟨t2, h2⟩ := ih (idx + 1) (processRow addErr commitErr cols fid idx r st)
    exact ⟨t1 ++ t2, by rw [h2, h1, List.append_assoc]⟩

theorem builtRecords_cons (cols : List String) (fid : Nat) (r : Row) (rest : List Row)
    (idx : Nat) :
    builtRecords cols fid (r :: rest) idx =
      buildRecord cols fid idx r :: builtRecords cols fid rest (idx + 1) := rfl

theorem builtRecords_length (cols : List String) (fid : Nat) (rows : List Row) (idx : Nat) :
    (builtRecords cols fid rows idx).length = rows.length := by
  induction rows generalizing idx with
  | nil => rfl
  | cons r rest ih =>
    rw [builtRecords_cons]
    simp [ih]

theorem processRows_fault_free (addErr commitErr : Nat → Option String)
    (cols : List String) (fid : Nat) (rows : List Row) (idx : Nat) (st : LoopState)
    (hA : ∀ i, addErr i = none) (hC : ∀ k, commitErr k = none)
    (hp : st.sess.poisoned = false)
    (hpend : st.sess.pending.length = st.rows_processed % 100) :
    (processRows addErr commitErr cols fid rows idx st).rows_processed =
        st.rows_processed + rows.length ∧
    (processRows addErr commitErr cols fid rows idx st).rows_failed = st.rows_failed ∧
    (processRows addErr commitErr cols fid rows idx st).error_details = st.error_details ∧
    (processRows addErr commitErr cols fid rows idx st).sess.poisoned = false ∧
    (processRows addErr commitErr cols fid rows idx st).sess.pending.length =
        (processRows addErr commitErr cols fid rows idx st).rows_processed % 100 ∧
    (processRows addErr commitErr cols fid rows idx st).sess.committed ++
        (processRows addErr commitErr cols fid rows idx st).sess.pending =
      st.sess.committed ++ st.sess.pending ++ builtRecords cols fid rows idx := by
  induction rows generalizing idx st with
  | nil =>
    simp [processRows_nil, hp, hpend]
    rfl
  | cons r rest ih =>
    rw [processRows_cons, builtRecords_cons]
    by_cases hb : (st.rows_processed + 1) % 100 = 0
    · rw [processRow_boundary_ok addErr commitErr cols fid idx r st (hA idx) hb hp
        (hC st.commits)]
      have := ih (idx + 1)
        { st with rows_processed := st.rows_processed + 1
                , commits := st.commits + 1
                , sess := ⟨st.sess.committed ++ (st.sess.pending ++ [buildRecord cols fid idx r]),
                           [], false⟩ }
        (by simp) (by simp [hb])
      simp only at this
      refine ⟨by rw [this.1]; simp; omega, this.2.1, this.2.2.1, this.2.2.2.1,
        this.2.2.2.2.1, ?_⟩
      rw [this.2.2.2.2.2]
      simp [List.append_assoc]
    · rw [processRow_nonboundary addErr commitErr cols fid idx r st (hA idx) hb]
      have := ih (idx + 1)
        { st with rows_processed := st.rows_processed + 1
                , sess := st.sess.add (buildRecord cols fid idx r) }
        (by simp [Session.add, hp]) (by simp [Session.add, hpend]; omega)
      simp only at this
      refine ⟨by rw [this.1]; simp; omega, this.2.1, this.2.2.1, this.2.2.2.1,
        this.2.2.2.2.1, ?_⟩
      rw [this.2.2.2.2.2]
      simp [Session.add, List.append_assoc]

theorem process_file_ok_elim (addErr commitErr : Nat → Option String)
    (df? : Option DataFrame) (fid : Nat) (sess sessF : Session) (pr : ProcResult)
    (h : process_file addErr commitErr df? fid sess = (sessF, Except.ok pr)) :
    ∃ df, df? = some df ∧
      pr.rows_processed + pr.rows_failed = df.rows.length ∧
      pr.total_rows = df.rows.length := by
  unfold process_file at h
  cases df? with
  | none => simp at h
  | some df =>
    refine ⟨df, rfl, ?_⟩
    dsimp only at h
    rcases hc : Session.commit
        (commitErr (processRows addErr commitErr df.columns fid df.rows 0
          ⟨0, 0, [], 0, sess⟩).commits)
        (processRows addErr commitErr df.columns fid df.rows 0
          ⟨0, 0, [], 0, sess⟩).sess with ⟨sF, e?⟩
    rw [hc] at h
    cases e? with
    | some e => simp at h
    | none =>
      have hpois : (processRows addErr commitErr df.columns fid df.rows 0
          ⟨0, 0, [], 0, sess⟩).sess.poisoned = false := by
        have := Session.commit_ok_elim
          (commitErr (processRows addErr commitErr df.columns fid df.rows 0
            ⟨0, 0, [], 0, sess⟩).commits)
          (processRows addErr commitErr df.columns fid df.rows 0
            ⟨0, 0, [], 0, sess⟩).sess (by rw [hc])
        exact this.1
      have hsum := processRows_of_unpoisoned_result addErr commitErr df.columns fid
        df.rows 0 ⟨0, 0, [], 0, sess⟩ hpois
      simp only [Prod.mk.injEq, Except.ok.injEq] at h
      have hpr := h.2
      constructor
      · rw [← hpr]
        simpa using hsum.2
      · rw [← hpr]

theorem processUpload_ok_elim (fault : Option String)
    (addErr commitErr : Nat → Option String) (df? : Option DataFrame)
    (template : Option Template) (fid : Nat) (sess : Session) (u u' : UploadRec)
    (sess' : Session) (pr : ProcResult)
    (h : processUpload fault addErr commitErr df? template fid sess u =
      (u', sess', UploadResponse.ok pr)) :
    u'.upload_status = UploadStatus.completed ∧
    u'.rows_processed = pr.rows_processed ∧
    u'.rows_failed = pr.rows_failed ∧
    (validate_file fault df? template).valid = true ∧
    ∃ sess1 sess2, process_file addErr commitErr df? fid sess1 =
      (sess2, Except.ok pr) := by
  unfold processUpload at h
  dsimp only at h
  split at h
  · simp at h
  · rename_i sess1 heq1
    split at h
    · split at h <;> simp at h
    · rename_i hvalid
      split at h
      · split at h <;> simp at h
      · rename_i sess2 pr2 heq2
        split at h
        · simp at h
        · simp only [Prod.mk.injEq, UploadResponse.ok.injEq] at h
          obtain ⟨hu, _, hpr⟩ := h
          subst hpr
          refine ⟨?_, ?_, ?_, by simpa using hvalid, sess1, sess2, heq2⟩
          · rw [← hu]
          · rw [← hu]
          · rw [← hu]

/-! ### Validator lemmas -/

theorem notna_eq_false_iff (c : Cell) : notna c = false ↔ c = Cell.na := by
  cases c <;> simp [notna]

theorem validate_file_fault (e : String) (df? : Option DataFrame)
    (template : Option Template) :
    validate_file (some e) df? template =
      ⟨false, some ("Validation error: " ++ e), none, none⟩ := rfl

theorem validate_file_no_fault (df? : Option DataFrame) (template : Option Template) :
    validate_file none df? template = validateChecks df? template := rfl

theorem validate_headers_shape (df : DataFrame) (template : Option Template) :
    ((validate_headers df template).valid = true ∧
      (validate_headers df template).error = none) ∨
    ((validate_headers df template).valid = false ∧
      ∃ e, (validate_headers df template).error = some e) := by
  unfold validate_headers
  cases template <;> dsimp only <;> split <;> simp

theorem validate_content_shape (df : DataFrame) (template : Option Template) :
    ((validate_content df template).valid = true ∧
      (validate_content df template).error = none) ∨
    ((validate_content df template).valid = false ∧
      ∃ e, (validate_content df template).error = some e) := by
  unfold validate_content
  dsimp only
  split <;> simp

theorem validateChecks_shape (df? : Option DataFrame) (template : Option Template) :
    ((validateChecks df? template).valid = true ∧
      (validateChecks df? template).error = none) ∨
    ((validateChecks df? template).valid = false ∧
      ∃ e, (validateChecks df? template).error = some e) := by
  unfold validateChecks
  cases df? with
  | none => simp
  | some df =>
    dsimp only
    by_cases hemp : df.rows.isEmpty
    · simp [hemp]
    · rw [if_neg (by simp [hemp])]
      by_cases hh : (validate_headers df template).valid = false
      · rw [if_pos hh]
        rcases validate_headers_shape df template with ⟨h1, _⟩ | ⟨h1, h2⟩
        · rw [hh] at h1; cases h1
        · exact Or.inr ⟨hh, h2⟩
      · rw [if_neg hh]
        by_cases hc : (validate_content df template).valid = false
        · rw [if_pos hc]
          rcases validate_content_shape df template with ⟨h1, _⟩ | ⟨h1, h2⟩
          · rw [hc] at h1; cases h1
          · exact Or.inr ⟨hc, h2⟩
        · rw [if_neg hc]
          by_cases h0 : df.rows.length = 0
          · simp [h0]
          · rw [if_neg h0]
            by_cases h10 : df.rows.length > 10000
            · simp [h10]
            · rw [if_neg h10]
              simp

theorem missingCount_replicate (cols : List String) (n : Nat) (r : Row) (h : String) :
    missingCount ⟨cols, List.replicate n r⟩ h =
      if notna (rowGet r h) = false then n else 0 := by
  induction n with
  | zero => simp [missingCount]
  | succ m ih =>
    unfold missingCount at ih ⊢
    simp only [List.replicate_succ, List.filter_cons] at ih ⊢
    by_cases hna : notna (rowGet r h) = false
    · simp only [hna] at ih ⊢
      simp at ih ⊢
      omega
    · simp only [hna] at ih ⊢
      simp at ih ⊢
      simpa [hna] using ih

theorem notna_eq_true_iff (c : Cell) : notna c = true ↔ c ≠ Cell.na := by
  cases c <;> simp [notna]

/-! ### Claim theorems -/

/-- C7: a caller whose role is outside the allow-list {admin, executive}
(for example `staff`) invoking the delete endpoint receives the 403
response carrying the required-role set and the caller's actual role; the
wrapped handler never runs, so no audit entry is written and no storage
mutation occurs (the store is returned unchanged). -/
theorem C7_delete_denied_without_mutation (jwtClaims : List (String × String))
    (role : String) (uid fid : Nat) (st : Store)
    (hrole : (List.lookup "role" jwtClaims).getD "public" = role)
    (hnot : role ∉ (["admin", "executive"] : List String)) :
    delete_upload_endpoint jwtClaims uid fid st =
      (RouteResult.forbidden ["admin", "executive"] role, st) := by
  unfold delete_upload_endpoint role_required
  dsimp only
  rw [hrole, if_pos hnot]

/-- Witness for C7 at a concrete store and a `staff` JWT. -/
theorem C7_delete_denied_without_mutation_witness :
    delete_upload_endpoint [("role", "staff")] 7 1
        ⟨[⟨1, "data.csv"⟩], [], []⟩ =
      (RouteResult.forbidden ["admin", "executive"] "staff",
        ⟨[⟨1, "data.csv"⟩], [], []⟩) :=
  C7_delete_denied_without_mutation [("role", "staff")] "staff" 7 1
    ⟨[⟨1, "data.csv"⟩], [], []⟩ (by decide) (by decide)

/-- C4 (divergence witness): a table whose `submission_date` column is
present in every row but nowhere coercible to a date passes validation.
The content check calls `pd.to_datetime(..., errors='coerce')`, which
never raises on unparseable data, so the `except` branch that would
report `'submission_date: Invalid date format'` (file_validator.py lines
180-181) is dead code and the Validator returns a success result. -/
theorem C4_unparseable_date_column_passes_validation :
    pdToDatetimeCoerce (rowGet badDateRow "submission_date") = none ∧
    missingCount badDateDf "submission_date" = 0 ∧
    validate_file none (some badDateDf) none =
      ⟨true, none, some 1, some ["submission_date", "department", "category"]⟩ := by
  refine ⟨by decide, by decide, by decide⟩

/-- C9 counterexample: a `department` cell holding only whitespace is
present (`pd.notna` is true), so the code stores the trimmed value, the
empty string, where the claim demands null for a blank cell. -/
theorem C9_blank_cell_yields_empty_string :
    notna (rowGet blankDeptRow "department") = true ∧
    pyStrip (cellStr (rowGet blankDeptRow "department")) = "" ∧
    (buildRecord ["department"] 5 0 blankDeptRow).department = some "" ∧
    (buildRecord ["department"] 5 0 blankDeptRow).department ≠ none := by
  decide

/-- C9 amended: `department` and `category` are the trimmed string
contents of the corresponding cells whenever the cell is present
(non-missing) — including the empty string for a blank cell — and null
exactly when the cell is missing or the column absent. -/
theorem C9_trimmed_fields (cols : List String) (fid idx : Nat) (row : Row) :
    ((rowGet row "department" = Cell.na →
        (buildRecord cols fid idx row).department = none) ∧
     (rowGet row "department" ≠ Cell.na →
        (buildRecord cols fid idx row).department =
          some (pyStrip (cellStr (rowGet row "department"))))) ∧
    ((rowGet row "category" = Cell.na →
        (buildRecord cols fid idx row).category = none) ∧
     (rowGet row "category" ≠ Cell.na →
        (buildRecord cols fid idx row).category =
          some (pyStrip (cellStr (rowGet row "category"))))) := by
  unfold buildRecord trimmedField
  refine ⟨⟨?_, ?_⟩, ?_, ?_⟩ <;> intro h <;> dsimp only
  · rw [if_neg (by simp [(notna_eq_false_iff _).2 h])]
  · rw [if_pos ((notna_eq_true_iff _).2 h)]
  · rw [if_neg (by simp [(notna_eq_false_iff _).2 h])]
  · rw [if_pos ((notna_eq_true_iff _).2 h)]

/-- Witness for C9's amended theorem: a padded department cell is trimmed,
an absent category column is null. -/
theorem C9_trimmed_fields_witness :
    (buildRecord ["department"] 2 0 [("department", Cell.str " Math ")]).department =
      some "Math" ∧
    (buildRecord ["department"] 2 0 [("department", Cell.str " Math ")]).category =
      none := by
  have h := C9_trimmed_fields ["department"] 2 0 [("department", Cell.str " Math ")]
  refine ⟨?_, h.2.1 (by decide)⟩
  rw [h.1.2 (by decide)]
  decide

/-- C2 counterexample: the diagnostic recorded for a failed row is
`"Row {line}: {cause}"` with a capital R (file_processor.py line 91), so
the claimed string `"row {line}: {cause}"` never appears. -/
theorem C2_diagnostic_capitalisation :
    (processRows failFirstAdd noErr [] 7 [([] : Row)] 0
        ⟨0, 0, [], 0, freshSession⟩).error_details = ["Row 2: boom"] ∧
    "row 2: boom" ∉
      (processRows failFirstAdd noErr [] 7 [([] : Row)] 0
        ⟨0, 0, [], 0, freshSession⟩).error_details := by
  decide

/-- C2 amended: when building/staging row `idx` raises, the handler
increments `rows_failed` by one, appends the diagnostic
`"Row {idx + 2}: {cause}"` (capital R), leaves `rows_processed` and the
session untouched, and the loop continues with the remaining rows. -/
theorem C2_row_failure_isolation (addErr commitErr : Nat → Option String)
    (cols : List String) (fid idx : Nat) (row : Row) (rest : List Row)
    (st : LoopState) (e : String) (h : addErr idx = some e) :
    processRow addErr commitErr cols fid idx row st =
      { st with rows_failed := st.rows_failed + 1
              , error_details := st.error_details ++ [s!"Row {idx + 2}: {e}"] } ∧
    processRows addErr commitErr cols fid (row :: rest) idx st =
      processRows addErr commitErr cols fid rest (idx + 1)
        { st with rows_failed := st.rows_failed + 1
                , error_details := st.error_details ++ [s!"Row {idx + 2}: {e}"] } := by
  have hrow := processRow_addErr_some addErr commitErr cols fid idx row st e h
  exact ⟨hrow, by rw [processRows_cons, hrow]⟩

/-- Witness for C2's amended theorem at a concrete failing row. -/
theorem C2_row_failure_isolation_witness :
    (processRow failFirstAdd noErr [] 7 0 ([] : Row)
        ⟨0, 0, [], 0, freshSession⟩).rows_failed = 1 ∧
    (processRow failFirstAdd noErr [] 7 0 ([] : Row)
        ⟨0, 0, [], 0, freshSession⟩).error_details = ["Row 2: boom"] ∧
    (processRow failFirstAdd noErr [] 7 0 ([] : Row)
        ⟨0, 0, [], 0, freshSession⟩).rows_processed = 0 := by
  have h := C2_row_failure_isolation failFirstAdd noErr [] 7 0 ([] : Row) []
    ⟨0, 0, [], 0, freshSession⟩ "boom" (by decide)
  rw [h.1]
  exact ⟨rfl, by decide, rfl⟩

/-- C5: a row whose `submission_date` cell is present but unparseable
still produces an EngagementRecord with `submission_date = null`; the row
counts as processed, not failed, and its record is staged (and later
committed) like any other.  (Staging and the batch commit, when one
fires, are assumed not to fail for this row, which is exactly the
date-coercion isolation the claim describes.) -/
theorem C5_unparseable_date_still_processed (addErr commitErr : Nat → Option String)
    (cols : List String) (fid idx : Nat) (row : Row) (st : LoopState) (s : String)
    (hcell : rowGet row "submission_date" = Cell.str s)
    (hdate : pdParseDate s = none)
    (hadd : addErr idx = none)
    (hp : st.sess.poisoned = false)
    (hc : commitErr st.commits = none) :
    (buildRecord cols fid idx row).submission_date = none ∧
    (processRow addErr commitErr cols fid idx row st).rows_processed =
      st.rows_processed + 1 ∧
    (processRow addErr commitErr cols fid idx row st).rows_failed = st.rows_failed ∧
    buildRecord cols fid idx row ∈
      (processRow addErr commitErr cols fid idx row st).sess.committed ++
        (processRow addErr commitErr cols fid idx row st).sess.pending := by
  have hsd : (buildRecord cols fid idx row).submission_date = none := by
    unfold buildRecord parse_date
    rw [hcell]
    simp [notna, pdToDatetimeCoerce, hdate]
  refine ⟨hsd, ?_⟩
  by_cases hb : (st.rows_processed + 1) % 100 = 0
  · rw [processRow_boundary_ok addErr commitErr cols fid idx row st hadd hb hp hc]
    simp
  · rw [processRow_nonboundary addErr commitErr cols fid idx row st hadd hb]
    simp [Session.add]

/-- Witness for C5 at a concrete row with a `bad-date` cell. -/
theorem C5_unparseable_date_still_processed_witness :
    (buildRecord ["submission_date"] 3 0
        [("submission_date", Cell.str "bad-date")]).submission_date = none ∧
    (processRow noErr noErr ["submission_date"] 3 0
        [("submission_date", Cell.str "bad-date")]
        ⟨0, 0, [], 0, freshSession⟩).rows_processed = 1 ∧
    (processRow noErr noErr ["submission_date"] 3 0
        [("submission_date", Cell.str "bad-date")]
        ⟨0, 0, [], 0, freshSession⟩).rows_failed = 0 := by
  have h := C5_unparseable_date_still_processed noErr noErr ["submission_date"] 3 0
    [("submission_date", Cell.str "bad-date")] ⟨0, 0, [], 0, freshSession⟩ "bad-date"
    (by decide) (by decide) (by decide) (by decide) (by decide)
  exact ⟨h.1, h.2.1, h.2.2.1⟩

/-- C8: the attribute map of every built record has exactly the table's
columns as keys, in order; each value is the source cell routed through
the write-time coercion; and that coercion sends missing markers to null,
numbers and booleans through verbatim, date/time values to their ISO-8601
string, and everything else to a string.  Flatness holds by construction:
every value lives in the scalar type `Scalar` (null, string, number or
boolean), which has no nested shape. -/
theorem C8_attribute_map_covers_columns (cols : List String) (fid idx : Nat)
    (row : Row) :
    ((buildRecord cols fid idx row).data_fields.map Prod.fst = cols) ∧
    (∀ col, col ∈ cols →
      (col, convertCell (rowGet row col)) ∈ (buildRecord cols fid idx row).data_fields) ∧
    (∀ c : Cell,
      (c = Cell.na → convertCell c = Scalar.null) ∧
      (∀ n, c = Cell.num n → convertCell c = Scalar.num n) ∧
      (∀ b, c = Cell.bool b → convertCell c = Scalar.bool b) ∧
      (∀ d, c = Cell.timestamp d → convertCell c = Scalar.str d.isoformat) ∧
      (∀ s, c = Cell.str s → convertCell c = Scalar.str s) ∧
      (∀ s, c = Cell.obj s → convertCell c = Scalar.str s)) := by
  refine ⟨?_, ?_, ?_⟩
  · unfold buildRecord
    induction cols with
    | nil => rfl
    | cons c cs ih => simpa using ih
  · intro col hcol
    unfold buildRecord
    simp only [List.mem_map]
    exact ⟨col, hcol, rfl⟩
  · intro c
    cases c <;> simp [convertCell, cellStr]

/-- Witness for C8 on the sample row. -/
theorem C8_attribute_map_covers_columns_witness :
    ((buildRecord ["submission_date", "department", "category"] 1 0 sampleRow).data_fields.map
        Prod.fst = ["submission_date", "department", "category"]) ∧
    ("department", convertCell (rowGet sampleRow "department")) ∈
      (buildRecord ["submission_date", "department", "category"] 1 0 sampleRow).data_fields ∧
    convertCell (Cell.timestamp ⟨2025, 1, 5⟩) = Scalar.str "2025-01-05" := by
  have h := C8_attribute_map_covers_columns
    ["submission_date", "department", "category"] 1 0 sampleRow
  refine ⟨h.1, h.2.1 "department" (by decide), ?_⟩
  rw [(h.2.2 (Cell.timestamp ⟨2025, 1, 5⟩)).2.2.2.1 ⟨2025, 1, 5⟩ rfl]
  decide

/-- C10: `validate_file` is total over its inputs — every outcome is a
result carrying a boolean validity flag (with an error message exactly
when invalid) — and any runtime error `e` escaping the checks inside the
`try` block is converted by the catch-all handler into an invalid result
whose message is `'Validation error: ' ++ e`, which the upload route then
turns into a `rejected` upload instead of crashing the pipeline. -/
theorem C10_validate_file_total (fault : Option String) (df? : Option DataFrame)
    (template : Option Template) :
    (((validate_file fault df? template).valid = true ∧
        (validate_file fault df? template).error = none) ∨
      ((validate_file fault df? template).valid = false ∧
        ∃ e, (validate_file fault df? template).error = some e)) ∧
    (∀ e, fault = some e →
      validate_file fault df? template =
        ⟨false, some ("Validation error: " ++ e), none, none⟩) ∧
    (∀ e addErr commitErr fid sess u, fault = some e → sess.poisoned = false →
      (processUpload fault addErr commitErr df? template fid sess u).1.upload_status =
        UploadStatus.rejected) := by
  refine ⟨?_, ?_, ?_⟩
  · cases fault with
    | some e => simp [validate_file_fault]
    | none =>
      rw [validate_file_no_fault]
      exact validateChecks_shape df? template
  · intro e he
    subst he
    rfl
  · intro e addErr commitErr fid sess u he hp
    subst he
    unfold processUpload
    dsimp only
    rw [show Session.commit none sess =
        (⟨sess.committed ++ sess.pending, [], false⟩, none) from by
      simp [Session.commit, hp]]
    dsimp only
    rw [if_pos (show (validate_file (some e) df? template).valid = false from rfl)]
    rw [show Session.commit none
        (⟨sess.committed ++ sess.pending, [], false⟩ : Session) =
        (⟨sess.committed ++ sess.pending, [], false⟩, none) from by
      simp [Session.commit]]

/-- Witness for C10: a concrete fault is converted, and the upload is
rejected. -/
theorem C10_validate_file_total_witness :
    validate_file (some "boom") (some badDateDf) none =
      ⟨false, some "Validation error: boom", none, none⟩ ∧
    (processUpload (some "boom") noErr noErr (some badDateDf) none 1 freshSession
        sampleUpload).1.upload_status = UploadStatus.rejected := by
  have h := C10_validate_file_total (some "boom") (some badDateDf) none
  constructor
  · rw [h.2.1 "boom" rfl]
    decide
  · exact h.2.2 "boom" noErr noErr 1 freshSession sampleUpload rfl rfl

/-- C1: whenever the upload route runs the Processor to normal completion
(the 200 response carrying a processing result), the returned counters
satisfy `rows_processed + rows_failed = total_rows`, and the upload
record is marked `completed` with those counters copied in — with no
assumption on `rows_failed`, so row-level failures do not fail the
upload.  Normal completion forces the final commit to succeed, which
(because a failed commit poisons the session for every later commit)
rules out any caught batch-commit failure and hence any double-counted
row. -/
theorem C1_counters_sum_and_completed (fault : Option String)
    (addErr commitErr : Nat → Option String) (df? : Option DataFrame)
    (template : Option Template) (fid : Nat) (sess : Session) (u u' : UploadRec)
    (sess' : Session) (pr : ProcResult)
    (h : processUpload fault addErr commitErr df? template fid sess u =
      (u', sess', UploadResponse.ok pr)) :
    pr.rows_processed + pr.rows_failed = pr.total_rows ∧
    u'.upload_status = UploadStatus.completed ∧
    u'.rows_processed = pr.rows_processed ∧
    u'.rows_failed = pr.rows_failed ∧
    (validate_file fault df? template).valid = true := by
  obtain ⟨hst, hrp, hrf, hval, sess1, sess2, hpf⟩ :=
    processUpload_ok_elim fault addErr commitErr df? template fid sess u u' sess' pr h
  obtain ⟨df, hdf, hsum, htot⟩ :=
    process_file_ok_elim addErr commitErr df? fid sess1 sess2 pr hpf
  exact ⟨by omega, hst, hrp, hrf, hval⟩

/-- Witness for C1: a complete fault-free run of the pipeline on the
one-row sample file. -/
theorem C1_counters_sum_and_completed_witness :
    processUpload none noErr noErr (some sampleDf) none 1 freshSession sampleUpload =
      (⟨UploadStatus.completed, none, 1, 0, some "All rows processed successfully"⟩,
        ⟨[sampleRecord], [], false⟩,
        UploadResponse.ok ⟨1, 0, 1, "All rows processed successfully"⟩) ∧
    (1 : Nat) + 0 = 1 := by
  have heq : processUpload none noErr noErr (some sampleDf) none 1 freshSession
      sampleUpload =
      (⟨UploadStatus.completed, none, 1, 0, some "All rows processed successfully"⟩,
        ⟨[sampleRecord], [], false⟩,
        UploadResponse.ok ⟨1, 0, 1, "All rows processed successfully"⟩) := by decide
  have h := C1_counters_sum_and_completed none noErr noErr (some sampleDf) none 1
    freshSession sampleUpload _ _ _ heq
  exact ⟨heq, by simpa using h.1⟩

theorem validate_content_required_present (df : DataFrame) (template : Option Template)
    (h1 : missingCount df "submission_date" = 0)
    (h2 : missingCount df "department" = 0)
    (h3 : missingCount df "category" = 0) :
    validate_content df template = ⟨true, none, none, none⟩ := by
  unfold validate_content
  simp [required_headers, h1, h2, h3]

/-- C3: every parsed table with more than 10000 rows fails validation; when
the earlier checks (headers, content) pass, the reported failure is the
row-bound message carrying the count and the limit 10000; on the upload
route such a file is marked `rejected` and contributes no engagement
records to the session; and a table with exactly 10000 rows does not fail
the row-bound check (with the other checks passing it validates). -/
theorem C3_row_bound_enforced (df df2 : DataFrame) (template : Option Template)
    (fault : Option String) (addErr commitErr : Nat → Option String)
    (fid : Nat) (sess : Session) (u : UploadRec)
    (hrows : df.rows.length > 10000) (hsess : sess.poisoned = false) :
    (validate_file fault (some df) template).valid = false ∧
    ((validate_headers df template).valid = true →
      (validate_content df template).valid = true →
      (validate_file none (some df) template).error =
        some (tooManyRowsMsg df.rows.length)) ∧
    ((processUpload fault addErr commitErr (some df) template fid sess u).1.upload_status =
      UploadStatus.rejected) ∧
    ((processUpload fault addErr commitErr (some df) template fid sess u).2.1.committed ++
        (processUpload fault addErr commitErr (some df) template fid sess u).2.1.pending =
      sess.committed ++ sess.pending) ∧
    (df2.rows.length = 10000 →
      (validate_headers df2 template).valid = true →
      (validate_content df2 template).valid = true →
      (validate_file none (some df2) template).valid = true) := by
  have hne : df.rows.isEmpty = false := by
    cases hdfr : df.rows with
    | nil => rw [hdfr] at hrows; simp at hrows
    | cons a l => rfl
  have hvchecks : (validateChecks (some df) template).valid = false := by
    unfold validateChecks
    dsimp only
    rw [if_neg (by simp [hne])]
    by_cases hh : (validate_headers df template).valid = false
    · rw [if_pos hh]
      exact hh
    · rw [if_neg hh]
      by_cases hc : (validate_content df template).valid = false
      · rw [if_pos hc]
        exact hc
      · rw [if_neg hc]
        rw [if_neg (show ¬df.rows.length = 0 by omega)]
        rw [if_pos hrows]
  have hvf : (validate_file fault (some df) template).valid = false := by
    cases fault with
    | some e => rw [validate_file_fault]
    | none => rw [validate_file_no_fault]; exact hvchecks
  have hpu : processUpload fault addErr commitErr (some df) template fid sess u =
      ({ u with upload_status := UploadStatus.rejected
              , error_message := (validate_file fault (some df) template).error },
        ⟨sess.committed ++ sess.pending, [], false⟩,
        UploadResponse.validationFailed
          ((validate_file fault (some df) template).error.getD "")) := by
    unfold processUpload
    dsimp only
    rw [show Session.commit none sess =
        (⟨sess.committed ++ sess.pending, [], false⟩, none) from by
      simp [Session.commit, hsess]]
    dsimp only
    rw [if_pos hvf]
    rw [show Session.commit none
        (⟨sess.committed ++ sess.pending, [], false⟩ : Session) =
        (⟨sess.committed ++ sess.pending, [], false⟩, none) from by
      simp [Session.commit]]
  refine ⟨hvf, ?_, by rw [hpu], by rw [hpu]; simp, ?_⟩
  · intro hh hc
    rw [validate_file_no_fault]
    unfold validateChecks
    dsimp only
    rw [if_neg (by simp [hne])]
    rw [if_neg (by simp [hh])]
    rw [if_neg (by simp [hc])]
    rw [if_neg (show ¬df.rows.length = 0 by omega)]
    rw [if_pos hrows]
  · intro h10000 hh2 hc2
    have hne2 : df2.rows.isEmpty = false := by
      cases hdfr : df2.rows with
      | nil => rw [hdfr] at h10000; simp at h10000
      | cons a l => rfl
    rw [validate_file_no_fault]
    unfold validateChecks
    dsimp only
    rw [if_neg (by simp [hne2])]
    rw [if_neg (by simp [hh2])]
    rw [if_neg (by simp [hc2])]
    rw [if_neg (show ¬df2.rows.length = 0 by omega)]
    rw [if_neg (show ¬df2.rows.length > 10000 by omega)]

/-- Witness for C3: a 10001-row file is rejected with the row-bound
message and leaves the session untouched; a 10000-row file validates. -/
theorem C3_row_bound_enforced_witness :
    (validate_file none (some df10001) none).valid = false ∧
    (validate_file none (some df10001) none).error = some (tooManyRowsMsg 10001) ∧
    (processUpload none noErr noErr (some df10001) none 1 freshSession
        sampleUpload).1.upload_status = UploadStatus.rejected ∧
    (validate_file none (some df10000) none).valid = true := by
  have hsd1 : missingCount df10001 "submission_date" = 0 := by
    rw [show df10001 = DataFrame.mk ["submission_date", "department", "category"]
        (List.replicate 10001 sampleRow) from rfl]
    rw [missingCount_replicate]
    decide
  have hdep1 : missingCount df10001 "department" = 0 := by
    rw [show df10001 = DataFrame.mk ["submission_date", "department", "category"]
        (List.replicate 10001 sampleRow) from rfl]
    rw [missingCount_replicate]
    decide
  have hcat1 : missingCount df10001 "category" = 0 := by
    rw [show df10001 = DataFrame.mk ["submission_date", "department", "category"]
        (List.replicate 10001 sampleRow) from rfl]
    rw [missingCount_replicate]
    decide
  have hsd2 : missingCount df10000 "submission_date" = 0 := by
    rw [show df10000 = DataFrame.mk ["submission_date", "department", "category"]
        (List.replicate 10000 sampleRow) from rfl]
    rw [missingCount_replicate]
    decide
  have hdep2 : missingCount df10000 "department" = 0 := by
    rw [show df10000 = DataFrame.mk ["submission_date", "department", "category"]
        (List.replicate 10000 sampleRow) from rfl]
    rw [missingCount_replicate]
    decide
  have hcat2 : missingCount df10000 "category" = 0 := by
    rw [show df10000 = DataFrame.mk ["submission_date", "department", "category"]
        (List.replicate 10000 sampleRow) from rfl]
    rw [missingCount_replicate]
    decide
  have hlen1 : df10001.rows.length = 10001 := by
    rw [show df10001 = DataFrame.mk ["submission_date", "department", "category"]
        (List.replicate 10001 sampleRow) from rfl]
    exact List.length_replicate 10001 sampleRow
  have hlen2 : df10000.rows.length = 10000 := by
    rw [show df10000 = DataFrame.mk ["submission_date", "department", "category"]
        (List.replicate 10000 sampleRow) from rfl]
    exact List.length_replicate 10000 sampleRow
  have hh1 : (validate_headers df10001 none).valid = true := by decide
  have hh2 : (validate_headers df10000 none).valid = true := by decide
  have hc1 : (validate_content df10001 none).valid = true := by
    rw [validate_content_required_present df10001 none hsd1 hdep1 hcat1]
  have hc2 : (validate_content df10000 none).valid = true := by
    rw [validate_content_required_present df10000 none hsd2 hdep2 hcat2]
  have h := C3_row_bound_enforced df10001 df10000 none none noErr noErr 1
    freshSession sampleUpload (by omega) rfl
  refine ⟨h.1, ?_, h.2.2.1, h.2.2.2.2 hlen2 hh2 hc2⟩
  have := h.2.1 hh1 hc1
  rw [hlen1] at this
  exact this

theorem Session.commit_committed_extension (fault : Option String) (s : Session) :
    ∃ t, (Session.commit fault s).1.committed = s.committed ++ t := by
  unfold Session.commit
  by_cases hp : s.poisoned = true
  · exact ⟨[], by simp [hp]⟩
  · simp only [Bool.not_eq_true] at hp
    cases fault with
    | some e => exact ⟨[], by simp [hp]⟩
    | none => exact ⟨s.pending, by simp [hp]⟩

/-- C6 amended: the Processor commits in batches of 100 successfully
staged rows, and the final commit of line 99 flushes the remainder, so a
fault-free run persists exactly the built records.  But a failure during
an in-loop batch commit is NOT fatal for the remaining rows: it is caught
by the per-row handler (counted in `rows_failed`, diagnostic appended)
and the loop continues consuming every remaining row — those rows are
staged and counted as processed yet never persisted, because the failed
commit leaves the session refusing every later commit.  The run then
terminates abnormally at the latest at the final commit; the rollback on
that error path discards only uncommitted rows while previously committed
batches remain persisted. -/
theorem C6_batching_and_commit_failure :
    (∀ (addErr commitErr : Nat → Option String) (df : DataFrame) (fid : Nat),
      (∀ i, addErr i = none) → (∀ k, commitErr k = none) →
      (processRows addErr commitErr df.columns fid df.rows 0
          ⟨0, 0, [], 0, freshSession⟩).sess.pending.length = df.rows.length % 100 ∧
      (processRows addErr commitErr df.columns fid df.rows 0
          ⟨0, 0, [], 0, freshSession⟩).sess.committed.length =
        df.rows.length - df.rows.length % 100 ∧
      process_file addErr commitErr (some df) fid freshSession =
        (⟨builtRecords df.columns fid df.rows 0, [], false⟩,
          Except.ok ⟨df.rows.length, 0, df.rows.length,
            "All rows processed successfully"⟩)) ∧
    (∀ (addErr commitErr : Nat → Option String) (cols : List String)
        (fid idx : Nat) (row : Row) (st : LoopState) (e : String),
      addErr idx = none → (st.rows_processed + 1) % 100 = 0 →
      st.sess.poisoned = false → commitErr st.commits = some e →
      processRow addErr commitErr cols fid idx row st =
        { st with rows_processed := st.rows_processed + 1
                , rows_failed := st.rows_failed + 1
                , error_details := st.error_details ++ [s!"Row {idx + 2}: {e}"]
                , commits := st.commits + 1
                , sess := ⟨st.sess.committed,
                           st.sess.pending ++ [buildRecord cols fid idx row], true⟩ }) ∧
    (∀ (addErr commitErr : Nat → Option String) (cols : List String) (fid : Nat)
        (rows : List Row) (idx : Nat) (st : LoopState),
      st.sess.poisoned = true →
      (processRows addErr commitErr cols fid rows idx st).sess.committed =
        st.sess.committed ∧
      st.rows_processed + st.rows_failed + rows.length ≤
        (processRows addErr commitErr cols fid rows idx st).rows_processed +
          (processRows addErr commitErr cols fid rows idx st).rows_failed) ∧
    (∀ (addErr commitErr : Nat → Option String) (df : DataFrame) (fid : Nat)
        (sess sessF : Session) (msg : String),
      process_file addErr commitErr (some df) fid sess = (sessF, Except.error msg) →
      sessF.pending = [] ∧ sessF.poisoned = false ∧
      ∃ t, sessF.committed = sess.committed ++ t) := by
  refine ⟨?_, ?_, ?_, ?_⟩
  · intro addErr commitErr df fid hA hC
    have ff := processRows_fault_free addErr commitErr df.columns fid df.rows 0
      ⟨0, 0, [], 0, freshSession⟩ hA hC rfl rfl
    obtain ⟨h1, h2, h3, h4, h5, h6⟩ := ff
    simp only at h1 h2 h3 h6
    have hlen : (processRows addErr commitErr df.columns fid df.rows 0
        ⟨0, 0, [], 0, freshSession⟩).sess.committed.length +
        (processRows addErr commitErr df.columns fid df.rows 0
          ⟨0, 0, [], 0, freshSession⟩).sess.pending.length = df.rows.length := by
      have := congrArg List.length h6
      simpa [freshSession, builtRecords_length] using this
    have hpend : (processRows addErr commitErr df.columns fid df.rows 0
        ⟨0, 0, [], 0, freshSession⟩).sess.pending.length = df.rows.length % 100 := by
      rw [h5, h1]
      simp
    refine ⟨hpend, by omega, ?_⟩
    unfold process_file
    dsimp only
    rw [show Session.commit
        (commitErr (processRows addErr commitErr df.columns fid df.rows 0
          ⟨0, 0, [], 0, freshSession⟩).commits)
        (processRows addErr commitErr df.columns fid df.rows 0
          ⟨0, 0, [], 0, freshSession⟩).sess =
        (⟨(processRows addErr commitErr df.columns fid df.rows 0
            ⟨0, 0, [], 0, freshSession⟩).sess.committed ++
          (processRows addErr commitErr df.columns fid df.rows 0
            ⟨0, 0, [], 0, freshSession⟩).sess.pending, [], false⟩, none) from by
      simp [Session.commit, h4, hC]]
    dsimp only
    simp only [Prod.mk.injEq, Except.ok.injEq]
    refine ⟨?_, ?_⟩
    · rw [Session.mk.injEq]
      refine ⟨?_, rfl, rfl⟩
      simpa [freshSession] using h6
    · rw [ProcResult.mk.injEq]
      refine ⟨by rw [h1]; omega, h2, rfl, ?_⟩
      rw [h3]
      rfl
  · intro addErr commitErr cols fid idx row st e h1 h2 h3 h4
    exact processRow_boundary_fail addErr commitErr cols fid idx row st e h1 h2 h3 h4
  · intro addErr commitErr cols fid rows idx st hp
    have := processRows_of_poisoned addErr commitErr cols fid rows idx st hp
    exact ⟨this.2.1, this.2.2⟩
  · intro addErr commitErr df fid sess sessF msg h
    unfold process_file at h
    dsimp only at h
    split at h
    · simp at h
    · rename_i sF e heq
      simp only [Prod.mk.injEq, Except.error.injEq] at h
      obtain ⟨hs, hm⟩ := h
      subst hs
      refine ⟨rfl, rfl, ?_⟩
      obtain ⟨t1, ht1⟩ := Session.commit_committed_extension
        (commitErr (processRows addErr commitErr df.columns fid df.rows 0
          ⟨0, 0, [], 0, sess⟩).commits)
        (processRows addErr commitErr df.columns fid df.rows 0
          ⟨0, 0, [], 0, sess⟩).sess
      obtain ⟨t2, ht2⟩ := processRows_committed_extension addErr commitErr df.columns
        fid df.rows 0 ⟨0, 0, [], 0, sess⟩
      refine ⟨t2 ++ t1, ?_⟩
      show sF.committed = sess.committed ++ (t2 ++ t1)
      rw [heq] at ht1
      simp only at ht1 ht2
      rw [ht1, ht2, List.append_assoc]

set_option maxRecDepth 100000 in
/-- C6 counterexample: inject a storage fault at the first batch commit of
a 101-row file.  The failure is caught by the per-row handler — row 101 is
still consumed and counted as processed (`rows_processed = 101`, where a
fatal failure would have stopped at 100) — and the run only errors later,
at the final commit, with the session's pending-rollback exception. -/
theorem C6_batch_commit_failure_processing_continues :
    (processRows noErr failFirstCommit [] 3 rows101 0
        ⟨0, 0, [], 0, freshSession⟩).rows_processed = 101 ∧
    (processRows noErr failFirstCommit [] 3 rows101 0
        ⟨0, 0, [], 0, freshSession⟩).rows_failed = 1 ∧
    (processRows noErr failFirstCommit [] 3 rows101 0
        ⟨0, 0, [], 0, freshSession⟩).error_details = ["Row 101: db down"] ∧
    (process_file noErr failFirstCommit (some ⟨[], rows101⟩) 3 freshSession).2 =
      Except.error pendingRollbackMsg := by
  decide

set_option maxRecDepth 100000 in
/-- Witness for C6: each conjunct of the amended theorem instantiated on
concrete runs. -/
theorem C6_batching_and_commit_failure_witness :
    process_file noErr noErr (some sampleDf) 1 freshSession =
      (⟨[sampleRecord], [], false⟩,
        Except.ok ⟨1, 0, 1, "All rows processed successfully"⟩) ∧
    processRow noErr failFirstCommit [] 3 99 ([] : Row) ⟨99, 0, [], 0, freshSession⟩ =
      ⟨100, 1, ["Row 101: db down"], 1, ⟨[], [buildRecord [] 3 99 ([] : Row)], true⟩⟩ ∧
    (processRows noErr noErr [] 3 [([] : Row)] 0
        ⟨0, 0, [], 0, ⟨[], [], true⟩⟩).sess.committed = [] ∧
    (process_file noErr failFirstCommit (some ⟨[], rows101⟩) 3 freshSession).1.pending =
      [] ∧
    (process_file noErr failFirstCommit (some ⟨[], rows101⟩) 3 freshSession).1.poisoned =
      false := by
  have h := C6_batching_and_commit_failure
  have hA : ∀ i, noErr i = none := fun _ => rfl
  refine ⟨?_, ?_, ?_, ?_, ?_⟩
  · have hi := (h.1 noErr noErr sampleDf 1 hA hA).2.2
    rw [hi]
    rw [show builtRecords sampleDf.columns 1 sampleDf.rows 0 = [sampleRecord] from by
      decide]
    rw [show sampleDf.rows.length = 1 from rfl]
  · have hii := h.2.1 noErr failFirstCommit [] 3 99 ([] : Row)
      ⟨99, 0, [], 0, freshSession⟩ "db down" rfl (by decide) rfl rfl
    rw [hii]
    decide
  · exact (h.2.2.1 noErr noErr [] 3 [([] : Row)] 0
      ⟨0, 0, [], 0, ⟨[], [], true⟩⟩ rfl).1
  · have heqD : process_file noErr failFirstCommit (some ⟨[], rows101⟩) 3 freshSession =
        (⟨[], [], false⟩, Except.error pendingRollbackMsg) := by decide
    have := (h.2.2.2 noErr failFirstCommit ⟨[], rows101⟩ 3 freshSession
      ⟨[], [], false⟩ pendingRollbackMsg heqD).1
    rw [heqD]
  · have heqD : process_file noErr failFirstCommit (some ⟨[], rows101⟩) 3 freshSession =
        (⟨[], [], false⟩, Except.error pendingRollbackMsg) := by decide
    have := (h.2.2.2 noErr failFirstCommit ⟨[], rows101⟩ 3 freshSession
      ⟨[], [], false⟩ pendingRollbackMsg heqD).2.1
    rw [heqD]
